import Mathlib

/-!
Shallow embedding of the `ProfilerMarker` derive of `rust-marker-macros`.

The repository has two crates:
* `macros/src/lib.rs` — the derive itself (`derive_profiler_marker`) with its
  helpers (`is_valid_marker_location`, `is_valid_format_string`,
  `marker_type_name_impl`, `marker_type_display_impl`,
  `stream_json_marker_data_impl`);
* `src/lib.rs` — the stub runtime surface (`MarkerSchema`, `JSONWriter`,
  the `ProfilerMarker` trait) that the generated code targets.

The derive is a pure token transformation, so we embed it as a pure Lean
function from a structural model of `syn::DeriveInput` to a structural model
of its output: either an early compile error (from `marker_display`
validation), a panic (`todo!` / `unimplemented!` on non-named-field shapes),
or the three generated items.  Field-level validation errors do not abort the
derive in the source: the erroneous field's schema-row call is replaced by an
embedded `compile_error!` token, which we model with a dedicated row
constructor.  Source spans are modelled as natural numbers so that "pinned to
the offending token" is expressible.
-/

namespace Profiler

/-- Attribute style, mirroring `syn::AttrStyle`: `Outer` (`#[...]`) or
`Inner` (`#![...]`). -/
inductive AttrStyle where
  | Outer : AttrStyle
  | Inner : AttrStyle
deriving DecidableEq, Repr

/-- One nested meta item of an attribute's argument list, as visited by
`syn`'s `parse_nested_meta`: its source span and `meta.path.get_ident()`
(`some` identifier when the path is a single identifier, `none` otherwise). -/
structure NestedMeta where
  span : Nat
  ident : Option String
deriving DecidableEq, Repr

/-- An attribute, mirroring the parts of `syn::Attribute` the derive reads:
its style, its path (as the identifier string tested by `path().is_ident`),
its own span (`attr.span()`), and its nested meta arguments in order. -/
structure Attr where
  style : AttrStyle
  path : String
  span : Nat
  args : List NestedMeta
deriving DecidableEq, Repr

/-- A named struct field, mirroring the parts of `syn::Field` the derive
reads: its identifier (rendered to a string, as `fname.to_token_stream()`)
and its attribute list. -/
structure Field where
  name : String
  attrs : List Attr
deriving DecidableEq, Repr

/-- Mirror of `syn::Fields`: named fields, unnamed (tuple) fields, or unit. -/
inductive Fields where
  | Named : List Field → Fields
  | Unnamed : Fields
  | Unit : Fields
deriving DecidableEq, Repr

/-- Mirror of `syn::Data`: struct, enum or union. -/
inductive Data where
  | Struct : Fields → Data
  | Enum : Data
  | Union : Data
deriving DecidableEq, Repr

/-- Mirror of the parts of `syn::DeriveInput` the derive reads: the type
identifier, the type-level attributes and the data shape. -/
structure DeriveInput where
  ident : String
  attrs : List Attr
  data : Data
deriving DecidableEq, Repr

/-- A build-time diagnostic: a message pinned to a source span, mirroring
`syn::Error::new(span, msg)` / `meta.error(msg)`. -/
structure DiagError where
  span : Nat
  msg : String
deriving DecidableEq, Repr

/-- `static LOCATIONS: &[&str]` from `macros/src/lib.rs`. -/
def LOCATIONS : List String :=
  ["MarkerChart", "MarkerTable", "TimelineOverview", "TimelineMemory",
   "TimelineIPC", "TimelineFileIO", "StackChart"]

/-- `static FORMATS: &[&str]` from `macros/src/lib.rs`. -/
def FORMATS : List String :=
  ["Url", "FilePath", "SanitizedString", "String", "UniqueString", "Duration",
   "Time", "Seconds", "Milliseconds", "Microseconds", "Nanoseconds", "Bytes",
   "Percentage", "Integer", "Decimal"]

/-- `fn is_valid_marker_location(ident: &syn::Ident) -> bool`:
`LOCATIONS.iter().any(|e| *e == ident_as_string)`. -/
def is_valid_marker_location (ident : String) : Bool :=
  LOCATIONS.any (fun e => e == ident)

/-- `fn is_valid_format_string(ident: &syn::Ident) -> bool`:
`FORMATS.iter().any(|e| *e == ident_as_string)`. -/
def is_valid_format_string (ident : String) : Bool :=
  FORMATS.any (fun e => e == ident)

/-- The `parse_nested_meta` closure for a `marker_display` attribute in
`derive_profiler_marker`: visit the nested meta items left to right; a valid
location identifier is pushed onto `marker_locations`; an invalid identifier
raises `meta.error("Unsupported marker display location")`; a non-identifier
path raises the "Expected a marker display location ..." error.  `syn` stops
at the first closure error and returns it. -/
def parse_marker_display_args : List NestedMeta → List String →
    Except DiagError (List String)
  | [], acc => Except.ok acc
  | m :: rest, acc =>
    match m.ident with
    | some i =>
      if is_valid_marker_location i then
        parse_marker_display_args rest (acc ++ [i])
      else
        Except.error ⟨m.span, "Unsupported marker display location"⟩
    | none =>
      Except.error
        ⟨m.span, "Expected a marker display location as argument to 'marker_display'"⟩

/-- The attribute loop of `derive_profiler_marker` step 2: skip inner
attributes, process every `marker_display` attribute through
`parse_marker_display_args`, ignore other attributes; the first error is
returned as a compile error for the whole derive. -/
def collect_marker_locations : List Attr → List String →
    Except DiagError (List String)
  | [], acc => Except.ok acc
  | a :: rest, acc =>
    match a.style with
    | AttrStyle.Inner => collect_marker_locations rest acc
    | AttrStyle.Outer =>
      if a.path = "marker_display" then
        match parse_marker_display_args a.args acc with
        | Except.error e => Except.error e
        | Except.ok acc' => collect_marker_locations rest acc'
      else collect_marker_locations rest acc

/-- The `parse_nested_meta` closure for a field-level `format` attribute in
`marker_type_display_impl`: a valid format identifier is stored into
`format` (overwriting), an invalid one raises
`meta.error("Unsupported format specifier")`, a non-identifier path raises
the "Expected a marker format specifier ..." error. -/
def parse_format_args : List NestedMeta → Option String →
    Except DiagError (Option String)
  | [], fmt => Except.ok fmt
  | m :: rest, fmt =>
    match m.ident with
    | some i =>
      if is_valid_format_string i then parse_format_args rest (some i)
      else Except.error ⟨m.span, "Unsupported format specifier"⟩
    | none =>
      Except.error
        ⟨m.span, "Expected a marker format specifier as argument to 'format'"⟩

/-- The per-field attribute scan of `marker_type_display_impl`: walk the
field's attributes in order with mutable state `format : Option<Ident>` and
`searchable : bool`; inner attributes are ignored; an outer `searchable`
attribute sets the flag; an outer `format` attribute when `format.is_some()`
raises `Error::new(attr.span(), "Too many format arguments")`, otherwise its
arguments are parsed by `parse_format_args`; any other attribute is ignored.
An error replaces the whole field's output (the closure `return`s it). -/
def scan_field_attrs : List Attr → Option String → Bool →
    Except DiagError (Option String × Bool)
  | [], fmt, sb => Except.ok (fmt, sb)
  | a :: rest, fmt, sb =>
    match a.style with
    | AttrStyle.Inner => scan_field_attrs rest fmt sb
    | AttrStyle.Outer =>
      if a.path = "searchable" then scan_field_attrs rest fmt true
      else if a.path = "format" then
        if fmt.isSome then
          Except.error ⟨a.span, "Too many format arguments"⟩
        else
          match parse_format_args a.args fmt with
          | Except.error e => Except.error e
          | Except.ok fmt' => scan_field_attrs rest fmt' sb
      else scan_field_attrs rest fmt sb

/-- One emitted statement of the generated `marker_type_display` body, per
field: either a `schema.add_key_label_format(key, label, format)` call, a
`schema.add_key_label_format_searchable(key, label, format,
Searchable::Searchable)` call, or an embedded `compile_error!` token produced
by `into_compile_error` for a field whose attribute scan failed. -/
inductive RowCall where
  | add_key_label_format : String → String → String → RowCall
  | add_key_label_format_searchable : String → String → String → RowCall
  | compile_error : DiagError → RowCall
deriving DecidableEq, Repr

/-- The rendering of the chosen format into a path token:
`format!("Format::{}", ident)` when a format was recorded, `"Format::String"`
otherwise. -/
def format_string : Option String → String
  | some id => "Format::" ++ id
  | none => "Format::String"

/-- The body of the `map` over `fields.named` in `marker_type_display_impl`:
scan the field's attributes, then emit the searchable or plain
`add_key_label_format...` call with key = label = field name, or the embedded
compile error. -/
def field_display_row (f : Field) : RowCall :=
  match scan_field_attrs f.attrs none false with
  | Except.error e => RowCall.compile_error e
  | Except.ok (fmt, sb) =>
    if sb then
      RowCall.add_key_label_format_searchable f.name f.name (format_string fmt)
    else
      RowCall.add_key_label_format f.name f.name (format_string fmt)

/-- Structural model of the generated `marker_type_display` function body:
the locations passed to `MarkerSchema::new`, the argument of
`set_chart_label`, and the per-field row statements in order. -/
structure TypeDisplayBody where
  new_locations : List String
  chart_label : String
  rows : List RowCall
deriving DecidableEq, Repr

/-- `marker_type_display_impl(name, marker_locations, data)`: for a struct
with named fields it emits `MarkerSchema::new(&[Location::MarkerChart])`, the
chart label `"Name: {marker.name}"` and one row statement per field; the
`_name` and `_marker_locations` parameters are ignored exactly as in the
source.  For unnamed fields and unit structs the source hits `todo!()`, for
enums and unions `unimplemented!()` — both are panics during expansion,
modelled as `none`. -/
def marker_type_display_impl (_name : String) (_marker_locations : List String)
    (data : Data) : Option TypeDisplayBody :=
  match data with
  | Data.Struct (Fields.Named fields) =>
    some { new_locations := ["Location::MarkerChart"]
           chart_label := "Name: \x7bmarker.name\x7d"
           rows := fields.map field_display_row }
  | Data.Struct Fields.Unnamed => none
  | Data.Struct Fields.Unit => none
  | Data.Enum => none
  | Data.Union => none

/-- `marker_type_name_impl(name)`: the generated `marker_type_name` body is
the string literal `#name_str` where
`name_str = name.to_token_stream().to_string()`, i.e. the type identifier
itself. -/
def marker_type_name_impl (name : String) : String :=
  name

/-- `stream_json_marker_data_impl()`: the generated
`stream_json_marker_data(&self, json_writer)` body, modelled as the ordered
list of (property key, writer method) calls it performs.  The source emits an
empty body, so the list is empty. -/
def stream_json_marker_data_impl : List (String × String) :=
  []

/-- The three generated items of a successful derive, in the order they are
spliced into `impl ProfilerMarker for #name`. -/
structure Artifacts where
  type_name : String
  display : TypeDisplayBody
  writes : List (String × String)
deriving DecidableEq, Repr

/-- Outcome of one run of the derive: an early compile error returned from
`marker_display` validation (no artifacts), a panic (`todo!` /
`unimplemented!`), or the emitted implementation.  Note that field-level
validation errors appear inside `Artifacts` as `RowCall.compile_error` rows,
not as a `compile_error` outcome. -/
inductive DeriveResult where
  | compile_error : DiagError → DeriveResult
  | panicked : DeriveResult
  | ok : Artifacts → DeriveResult
deriving DecidableEq, Repr

/-- `derive_profiler_marker(input)`: validate and collect the
`marker_display` locations (an error here aborts the derive and returns a
lone compile error); then generate the three items; a panic in
`marker_type_display_impl` propagates. -/
def derive_profiler_marker (input : DeriveInput) : DeriveResult :=
  match collect_marker_locations input.attrs [] with
  | Except.error e => DeriveResult.compile_error e
  | Except.ok locs =>
    match marker_type_display_impl input.ident locs input.data with
    | none => DeriveResult.panicked
    | some disp =>
      DeriveResult.ok
        { type_name := marker_type_name_impl input.ident
          display := disp
          writes := stream_json_marker_data_impl }

/-- An attribute is a field-level `format` attribute when it is outer and its
path is `format`. -/
def is_fmt_attr (a : Attr) : Bool :=
  match a.style with
  | AttrStyle.Outer => a.path == "format"
  | AttrStyle.Inner => false

/-- An attribute is a field-level `searchable` attribute when it is outer and
its path is `searchable`. -/
def is_srch_attr (a : Attr) : Bool :=
  match a.style with
  | AttrStyle.Outer => a.path == "searchable"
  | AttrStyle.Inner => false

/-- The property keys declared by a list of row statements, in order;
embedded compile errors declare no key. -/
def row_keys (rows : List RowCall) : List String :=
  rows.filterMap fun r =>
    match r with
    | RowCall.add_key_label_format k _ _ => some k
    | RowCall.add_key_label_format_searchable k _ _ => some k
    | RowCall.compile_error _ => none

/-- The number of embedded `compile_error!` rows in a generated display
body. -/
def error_row_count (rows : List RowCall) : Nat :=
  (rows.filter fun r =>
    match r with
    | RowCall.compile_error _ => true
    | _ => false).length

/-- Unfolding equation of `scan_field_attrs` for an inner attribute: it is
skipped. -/
theorem scan_field_attrs_cons_inner (p : String) (sp : Nat) (args : List NestedMeta)
    (rest : List Attr) (fmt : Option String) (sb : Bool) :
    scan_field_attrs (⟨AttrStyle.Inner, p, sp, args⟩ :: rest) fmt sb =
      scan_field_attrs rest fmt sb := rfl

/-- Unfolding equation of `scan_field_attrs` for an outer attribute,
exposing the `searchable` / `format` dispatch. -/
theorem scan_field_attrs_cons_outer (p : String) (sp : Nat) (args : List NestedMeta)
    (rest : List Attr) (fmt : Option String) (sb : Bool) :
    scan_field_attrs (⟨AttrStyle.Outer, p, sp, args⟩ :: rest) fmt sb =
      (if p = "searchable" then scan_field_attrs rest fmt true
       else if p = "format" then
         if fmt.isSome then
           Except.error ⟨sp, "Too many format arguments"⟩
         else
           match parse_format_args args fmt with
           | Except.error e => Except.error e
           | Except.ok fmt' => scan_field_attrs rest fmt' sb
       else scan_field_attrs rest fmt sb) := rfl

/-- Scanning past a block of attributes none of which is a `format`
attribute leaves the recorded format untouched and only accumulates the
searchable flag. -/
theorem scan_field_attrs_skip (l₁ l₂ : List Attr) (fmt : Option String) (sb : Bool)
    (h : ∀ a ∈ l₁, is_fmt_attr a = false) :
    scan_field_attrs (l₁ ++ l₂) fmt sb =
      scan_field_attrs l₂ fmt (sb || l₁.any is_srch_attr) := by
  induction l₁ generalizing sb with
  | nil => simp
  | cons a rest ih =>
    obtain ⟨st, p, sp, args⟩ := a
    have ha : is_fmt_attr ⟨st, p, sp, args⟩ = false := h _ (List.mem_cons_self _ _)
    have hrest : ∀ b ∈ rest, is_fmt_attr b = false :=
      fun b hb => h b (List.mem_cons_of_mem _ hb)
    cases st with
    | Inner =>
      rw [List.cons_append, scan_field_attrs_cons_inner, ih sb hrest]
      simp [is_srch_attr]
    | Outer =>
      have hp : (p == "format") = false := ha
      have hp' : ¬ p = "format" := by simpa using hp
      rw [List.cons_append, scan_field_attrs_cons_outer]
      by_cases hsrch : p = "searchable"
      · rw [if_pos hsrch, ih true hrest]
        subst hsrch
        simp [is_srch_attr]
      · rw [if_neg hsrch, if_neg hp', ih sb hrest]
        simp [is_srch_attr, beq_eq_false_iff_ne.mpr hsrch]

/-- A successful field scan sets the searchable flag exactly when the field
has an outer `searchable` attribute (accumulated onto the incoming flag). -/
theorem scan_field_attrs_ok_searchable (attrs : List Attr) :
    ∀ (fmt : Option String) (sb : Bool) (fmt' : Option String) (sb' : Bool),
    scan_field_attrs attrs fmt sb = Except.ok (fmt', sb') →
    sb' = (sb || attrs.any is_srch_attr) := by
  induction attrs with
  | nil =>
    intro fmt sb fmt' sb' h
    simp only [scan_field_attrs, Except.ok.injEq, Prod.mk.injEq] at h
    simp [h.2.symm]
  | cons a rest ih =>
    intro fmt sb fmt' sb' h
    obtain ⟨st, p, sp, args⟩ := a
    cases st with
    | Inner =>
      rw [scan_field_attrs_cons_inner] at h
      rw [ih _ _ _ _ h]
      simp [is_srch_attr]
    | Outer =>
      rw [scan_field_attrs_cons_outer] at h
      by_cases hsrch : p = "searchable"
      · rw [if_pos hsrch] at h
        rw [ih _ _ _ _ h]
        subst hsrch
        simp [is_srch_attr]
      · rw [if_neg hsrch] at h
        by_cases hfmt : p = "format"
        · rw [if_pos hfmt] at h
          cases hsome : fmt.isSome with
          | true => rw [hsome] at h; simp at h
          | false =>
            rw [hsome] at h
            simp only [Bool.false_eq_true, if_false] at h
            cases hparse : parse_format_args args fmt with
            | error e => rw [hparse] at h; simp at h
            | ok fmt'' =>
              rw [hparse] at h
              rw [ih _ _ _ _ h]
              simp [is_srch_attr, beq_eq_false_iff_ne.mpr hsrch]
        · rw [if_neg hfmt] at h
          rw [ih _ _ _ _ h]
          simp [is_srch_attr, beq_eq_false_iff_ne.mpr hsrch]

/-- A field whose attributes contain no `format` attribute scans successfully
and keeps the incoming (default) format. -/
theorem scan_field_attrs_no_fmt (attrs : List Attr) (fmt : Option String) (sb : Bool)
    (h : ∀ a ∈ attrs, is_fmt_attr a = false) :
    scan_field_attrs attrs fmt sb = Except.ok (fmt, sb || attrs.any is_srch_attr) := by
  have := scan_field_attrs_skip attrs [] fmt sb h
  simpa using this

/-- Unfolding equation of `parse_marker_display_args` on a cons cell. -/
theorem parse_marker_display_args_cons (m : NestedMeta) (rest : List NestedMeta)
    (acc : List String) :
    parse_marker_display_args (m :: rest) acc =
      (match m.ident with
       | some i =>
         if is_valid_marker_location i then
           parse_marker_display_args rest (acc ++ [i])
         else Except.error ⟨m.span, "Unsupported marker display location"⟩
       | none =>
         Except.error
           ⟨m.span, "Expected a marker display location as argument to 'marker_display'"⟩) := rfl

/-- `parse_marker_display_args` reports "Unsupported marker display location"
pinned to the first invalid identifier, after any prefix of valid location
identifiers. -/
theorem parse_marker_display_args_err (pre : List NestedMeta) (sp : Nat) (s : String)
    (post : List NestedMeta) (acc : List String)
    (hpre : ∀ m ∈ pre, ∃ i, m.ident = some i ∧ is_valid_marker_location i = true)
    (hs : is_valid_marker_location s = false) :
    parse_marker_display_args (pre ++ ⟨sp, some s⟩ :: post) acc =
      Except.error ⟨sp, "Unsupported marker display location"⟩ := by
  induction pre generalizing acc with
  | nil => simp [parse_marker_display_args, hs]
  | cons m rest ih =>
    obtain ⟨i, hident, hval⟩ := hpre m (List.mem_cons_self _ _)
    obtain ⟨msp, mident⟩ := m
    simp only at hident
    subst hident
    have hrest : ∀ m ∈ rest, ∃ i, m.ident = some i ∧ is_valid_marker_location i = true :=
      fun m hm => hpre m (List.mem_cons_of_mem _ hm)
    rw [List.cons_append, parse_marker_display_args_cons]
    simp only [hval, if_true]
    exact ih _ hrest

/-- Unfolding equation of `parse_format_args` on a cons cell. -/
theorem parse_format_args_cons (m : NestedMeta) (rest : List NestedMeta)
    (fmt : Option String) :
    parse_format_args (m :: rest) fmt =
      (match m.ident with
       | some i =>
         if is_valid_format_string i then parse_format_args rest (some i)
         else Except.error ⟨m.span, "Unsupported format specifier"⟩
       | none =>
         Except.error
           ⟨m.span, "Expected a marker format specifier as argument to 'format'"⟩) := rfl

/-- `parse_format_args` reports "Unsupported format specifier" pinned to the
first invalid identifier, after any prefix of valid format identifiers. -/
theorem parse_format_args_err (pre : List NestedMeta) (sp : Nat) (s : String)
    (post : List NestedMeta) (fmt : Option String)
    (hpre : ∀ m ∈ pre, ∃ i, m.ident = some i ∧ is_valid_format_string i = true)
    (hs : is_valid_format_string s = false) :
    parse_format_args (pre ++ ⟨sp, some s⟩ :: post) fmt =
      Except.error ⟨sp, "Unsupported format specifier"⟩ := by
  induction pre generalizing fmt with
  | nil => simp [parse_format_args, hs]
  | cons m rest ih =>
    obtain ⟨i, hident, hval⟩ := hpre m (List.mem_cons_self _ _)
    obtain ⟨msp, mident⟩ := m
    simp only at hident
    subst hident
    have hrest : ∀ m ∈ rest, ∃ i, m.ident = some i ∧ is_valid_format_string i = true :=
      fun m hm => hpre m (List.mem_cons_of_mem _ hm)
    rw [List.cons_append, parse_format_args_cons]
    simp only [hval, if_true]
    exact ih _ hrest

/-- Unfolding equation of `collect_marker_locations` for an outer attribute. -/
theorem collect_marker_locations_cons_outer (p : String) (sp : Nat)
    (args : List NestedMeta) (rest : List Attr) (acc : List String) :
    collect_marker_locations (⟨AttrStyle.Outer, p, sp, args⟩ :: rest) acc =
      (if p = "marker_display" then
        match parse_marker_display_args args acc with
        | Except.error e => Except.error e
        | Except.ok acc' => collect_marker_locations rest acc'
      else collect_marker_locations rest acc) := rfl

/-- Inversion principle for a successful derive: the `marker_display`
attributes validated, the input was a struct with named fields, and the
emitted artifacts are the type name, the baseline display body with one row
statement per field, and the empty writer body. -/
theorem derive_ok_inversion (input : DeriveInput) (a : Artifacts)
    (h : derive_profiler_marker input = DeriveResult.ok a) :
    ∃ locs fields,
      collect_marker_locations input.attrs [] = Except.ok locs ∧
      input.data = Data.Struct (Fields.Named fields) ∧
      a = ⟨input.ident,
           ⟨["Location::MarkerChart"], "Name: \x7bmarker.name\x7d",
            fields.map field_display_row⟩,
           []⟩ := by
  obtain ⟨idn, attrs, data⟩ := input
  unfold derive_profiler_marker at h
  cases hc : collect_marker_locations attrs [] with
  | error e =>
    rw [hc] at h
    exact absurd (show DeriveResult.compile_error e = DeriveResult.ok a from h) (by simp)
  | ok locs =>
    rw [hc] at h
    cases data with
    | Struct fs =>
      cases fs with
      | Named fields =>
        have h' : DeriveResult.ok
            (⟨marker_type_name_impl idn,
              ⟨["Location::MarkerChart"], "Name: \x7bmarker.name\x7d",
               fields.map field_display_row⟩,
              stream_json_marker_data_impl⟩ : Artifacts) = DeriveResult.ok a := h
        simp only [DeriveResult.ok.injEq] at h'
        exact ⟨locs, fields, rfl, rfl, h'.symm⟩
      | Unnamed =>
        exact absurd (show DeriveResult.panicked = DeriveResult.ok a from h) (by simp)
      | Unit =>
        exact absurd (show DeriveResult.panicked = DeriveResult.ok a from h) (by simp)
    | Enum =>
      exact absurd (show DeriveResult.panicked = DeriveResult.ok a from h) (by simp)
    | Union =>
      exact absurd (show DeriveResult.panicked = DeriveResult.ok a from h) (by simp)

/-- C5: Membership in the Location and Format vocabularies is exact,
case-sensitive string matching against the fixed closed lists (7 locations,
15 formats); an invalid `marker_display` argument is rejected with
"Unsupported marker display location" pinned to the offending token (aborting
the whole derive), and an invalid field-level `format` argument is rejected
with "Unsupported format specifier" pinned to the offending token. -/
theorem vocabulary_membership :
    LOCATIONS.length = 7 ∧ FORMATS.length = 15 ∧
    (∀ s, is_valid_marker_location s = true ↔ s ∈ LOCATIONS) ∧
    (∀ s, is_valid_format_string s = true ↔ s ∈ FORMATS) ∧
    (∀ pre sp s post acc,
        (∀ m ∈ pre, ∃ i, NestedMeta.ident m = some i ∧ is_valid_marker_location i = true) →
        is_valid_marker_location s = false →
        parse_marker_display_args (pre ++ ⟨sp, some s⟩ :: post) acc =
          Except.error ⟨sp, "Unsupported marker display location"⟩) ∧
    (∀ pre sp s post fmt,
        (∀ m ∈ pre, ∃ i, NestedMeta.ident m = some i ∧ is_valid_format_string i = true) →
        is_valid_format_string s = false →
        parse_format_args (pre ++ ⟨sp, some s⟩ :: post) fmt =
          Except.error ⟨sp, "Unsupported format specifier"⟩) ∧
    (∀ name data sp₀ pre sp s post,
        (∀ m ∈ pre, ∃ i, NestedMeta.ident m = some i ∧ is_valid_marker_location i = true) →
        is_valid_marker_location s = false →
        derive_profiler_marker
          ⟨name, [⟨AttrStyle.Outer, "marker_display", sp₀, pre ++ ⟨sp, some s⟩ :: post⟩], data⟩ =
          DeriveResult.compile_error ⟨sp, "Unsupported marker display location"⟩) ∧
    (∀ fname sp₀ sp s,
        is_valid_format_string s = false →
        field_display_row ⟨fname, [⟨AttrStyle.Outer, "format", sp₀, [⟨sp, some s⟩]⟩]⟩ =
          RowCall.compile_error ⟨sp, "Unsupported format specifier"⟩) := by
  refine ⟨rfl, rfl, ?_, ?_, parse_marker_display_args_err, parse_format_args_err, ?_, ?_⟩
  · intro s
    simp [is_valid_marker_location, List.any_eq_true]
  · intro s
    simp [is_valid_format_string, List.any_eq_true]
  · intro name data sp₀ pre sp s post hpre hs
    unfold derive_profiler_marker
    rw [show DeriveInput.attrs
        ⟨name, [⟨AttrStyle.Outer, "marker_display", sp₀, pre ++ ⟨sp, some s⟩ :: post⟩], data⟩ =
        [⟨AttrStyle.Outer, "marker_display", sp₀, pre ++ ⟨sp, some s⟩ :: post⟩] from rfl]
    rw [collect_marker_locations_cons_outer, if_pos rfl,
      parse_marker_display_args_err pre sp s post [] hpre hs]
  · intro fname sp₀ sp s hs
    have hscan : scan_field_attrs [⟨AttrStyle.Outer, "format", sp₀, [⟨sp, some s⟩]⟩] none false =
        Except.error ⟨sp, "Unsupported format specifier"⟩ := by
      rw [scan_field_attrs_cons_outer,
        if_neg (by decide : ¬ ("format" = "searchable")), if_pos rfl]
      have hp : parse_format_args [⟨sp, some s⟩] none =
          Except.error ⟨sp, "Unsupported format specifier"⟩ := by
        simp [parse_format_args, hs]
      rw [if_neg (by simp : ¬ ((none : Option String).isSome = true)), hp]
    simp [field_display_row, hscan]

/-- C5 witness: concrete invalid identifiers are rejected with the pinned
diagnostics, instantiating `vocabulary_membership`. -/
theorem vocabulary_membership_witness :
    parse_marker_display_args
        [⟨2, some "MarkerChart"⟩, ⟨9, some "NotARealLocation"⟩] [] =
      Except.error ⟨9, "Unsupported marker display location"⟩ ∧
    parse_format_args [⟨5, some "bytes"⟩] none =
      Except.error ⟨5, "Unsupported format specifier"⟩ ∧
    derive_profiler_marker
        ⟨"M", [⟨AttrStyle.Outer, "marker_display", 1, [⟨9, some "NotARealLocation"⟩]⟩],
         Data.Struct (Fields.Named [])⟩ =
      DeriveResult.compile_error ⟨9, "Unsupported marker display location"⟩ ∧
    field_display_row ⟨"f", [⟨AttrStyle.Outer, "format", 4, [⟨5, some "bytes"⟩]⟩]⟩ =
      RowCall.compile_error ⟨5, "Unsupported format specifier"⟩ := by
  refine ⟨?_, ?_, ?_, ?_⟩
  · have := vocabulary_membership.2.2.2.2.1 [⟨2, some "MarkerChart"⟩] 9 "NotARealLocation" [] []
      (by intro m hm; simp at hm; subst hm; exact ⟨"MarkerChart", rfl, by decide⟩) (by decide)
    simpa using this
  · have := vocabulary_membership.2.2.2.2.2.1 [] 5 "bytes" [] none (by simp) (by decide)
    simpa using this
  · have := vocabulary_membership.2.2.2.2.2.2.1 "M" (Data.Struct (Fields.Named [])) 1
      [] 9 "NotARealLocation" [] (by simp) (by decide)
    simpa using this
  · exact vocabulary_membership.2.2.2.2.2.2.2 "f" 4 5 "bytes" (by decide)

/-- C6: `marker_type_display_impl` anchors every generated schema to
`MarkerSchema::new(&[Location::MarkerChart])` and sets the chart label to
"Name: {marker.name}", and it is entirely independent of the validated
`marker_display` locations (and of the type name), which are not threaded
into the builder call. -/
theorem schema_baseline_location :
    (∀ name locs data d, marker_type_display_impl name locs data = some d →
       d.new_locations = ["Location::MarkerChart"] ∧
       d.chart_label = "Name: \x7bmarker.name\x7d") ∧
    (∀ name name' locs locs' data,
       marker_type_display_impl name locs data =
         marker_type_display_impl name' locs' data) := by
  constructor
  · intro name locs data d h
    cases data with
    | Struct fs =>
      cases fs with
      | Named fields =>
        simp only [marker_type_display_impl, Option.some.injEq] at h
        rw [← h]
        exact ⟨rfl, rfl⟩
      | Unnamed => simp [marker_type_display_impl] at h
      | Unit => simp [marker_type_display_impl] at h
    | Enum => simp [marker_type_display_impl] at h
    | Union => simp [marker_type_display_impl] at h
  · intro _ _ _ _ data
    cases data with
    | Struct fs => cases fs <;> rfl
    | Enum => rfl
    | Union => rfl

/-- C6 witness: a concrete derivation requesting `MarkerTable` still anchors
the schema to `MarkerChart` with the default chart label, by
`schema_baseline_location`. -/
theorem schema_baseline_location_witness :
    TypeDisplayBody.new_locations
        ⟨["Location::MarkerChart"], "Name: \x7bmarker.name\x7d",
         [RowCall.add_key_label_format "a" "a" "Format::String"]⟩ =
      ["Location::MarkerChart"] ∧
    TypeDisplayBody.chart_label
        ⟨["Location::MarkerChart"], "Name: \x7bmarker.name\x7d",
         [RowCall.add_key_label_format "a" "a" "Format::String"]⟩ =
      "Name: \x7bmarker.name\x7d" :=
  schema_baseline_location.1 "M" ["MarkerTable"]
    (Data.Struct (Fields.Named [⟨"a", []⟩])) _ rfl

/-- C7: every declared field produces exactly one schema row — also a field
with no annotations at all, whose row is
`add_key_label_format(name, name, Format::String)` (implicitly not
searchable). -/
theorem row_for_unannotated_field (name : String) (locs : List String)
    (fields : List Field) (d : TypeDisplayBody)
    (h : marker_type_display_impl name locs (Data.Struct (Fields.Named fields)) = some d) :
    d.rows.length = fields.length ∧
    ∀ (i : Nat) (f : Field), fields[i]? = some f → f.attrs = [] →
      d.rows[i]? = some (RowCall.add_key_label_format f.name f.name "Format::String") := by
  simp only [marker_type_display_impl, Option.some.injEq] at h
  rw [← h]
  constructor
  · exact List.length_map _ _
  · intro i f hf hattrs
    have hrow : field_display_row f =
        RowCall.add_key_label_format f.name f.name "Format::String" := by
      simp [field_display_row, hattrs, scan_field_attrs, format_string]
    simp [List.getElem?_map, hf, hrow]

/-- C7 witness: a one-field struct whose field carries no annotations still
gets the default row, by `row_for_unannotated_field`. -/
theorem row_for_unannotated_field_witness :
    (TypeDisplayBody.rows
        ⟨["Location::MarkerChart"], "Name: \x7bmarker.name\x7d",
         [RowCall.add_key_label_format "plain" "plain" "Format::String"]⟩).length = 1 ∧
    ∀ (i : Nat) (f : Field), [(⟨"plain", []⟩ : Field)][i]? = some f → f.attrs = [] →
      (TypeDisplayBody.rows
        ⟨["Location::MarkerChart"], "Name: \x7bmarker.name\x7d",
         [RowCall.add_key_label_format "plain" "plain" "Format::String"]⟩)[i]? =
        some (RowCall.add_key_label_format f.name f.name "Format::String") :=
  row_for_unannotated_field "P" [] [⟨"plain", []⟩] _ rfl

/-- C8: the generated `marker_type_name` body is the type's identifier as a
static string literal; the generation is total and, on every successful
derive, the emitted name is exactly the input identifier. -/
theorem type_name_is_ident :
    (∀ n, marker_type_name_impl n = n) ∧
    (∀ input a, derive_profiler_marker input = DeriveResult.ok a →
       a.type_name = input.ident) := by
  refine ⟨fun n => rfl, fun input a h => ?_⟩
  obtain ⟨locs, fields, _, _, ha⟩ := derive_ok_inversion input a h
  rw [ha]

/-- C8 witness: a concrete derive emits the type's identifier as the name,
by `type_name_is_ident`. -/
theorem type_name_is_ident_witness :
    Artifacts.type_name
        ⟨"Foo", ⟨["Location::MarkerChart"], "Name: \x7bmarker.name\x7d", []⟩, []⟩ =
      "Foo" :=
  type_name_is_ident.2 ⟨"Foo", [], Data.Struct (Fields.Named [])⟩ _ rfl

/-- C9: the derive is a pure deterministic function of the record
definition: equal inputs yield byte-identical generated artifacts. -/
theorem derive_deterministic (d₁ d₂ : DeriveInput) (h : d₁ = d₂) :
    derive_profiler_marker d₁ = derive_profiler_marker d₂ := by
  rw [h]

/-- C9 witness: two runs on the same concrete record definition agree, by
`derive_deterministic`. -/
theorem derive_deterministic_witness :
    derive_profiler_marker ⟨"Foo", [], Data.Struct (Fields.Named [⟨"a", []⟩])⟩ =
      derive_profiler_marker ⟨"Foo", [], Data.Struct (Fields.Named [⟨"a", []⟩])⟩ :=
  derive_deterministic _ _ rfl

/-- C1: for a struct with named fields, `marker_type_display_impl` walks the
fields in declaration order, emitting exactly one schema-row-append call per
field; for a field whose attribute scan succeeds with recorded format `fmt`
and searchable flag `sb`, the row at the field's position has key = label =
field name; a `searchable` annotation yields the
`add_key_label_format_searchable` call (with `Searchable::Searchable`) and
otherwise the plain `add_key_label_format` call is emitted; the format
defaults to `Format::String` when no `format` annotation is declared — so a
field with `searchable` but no `format` yields a searchable row with
`Format::String`. -/
theorem typeDisplay_row_per_field_spec (name : String) (locs : List String)
    (fields : List Field) (i : Nat) (f : Field) (fmt : Option String) (sb : Bool)
    (hf : fields[i]? = some f)
    (hscan : scan_field_attrs f.attrs none false = Except.ok (fmt, sb)) :
    ∃ d, marker_type_display_impl name locs (Data.Struct (Fields.Named fields)) = some d ∧
      d.rows.length = fields.length ∧
      d.rows[i]? = some (if sb then
          RowCall.add_key_label_format_searchable f.name f.name (format_string fmt)
        else RowCall.add_key_label_format f.name f.name (format_string fmt)) ∧
      sb = f.attrs.any is_srch_attr ∧
      ((∀ a ∈ f.attrs, is_fmt_attr a = false) → fmt = none) ∧
      (fmt = none → format_string fmt = "Format::String") := by
  refine ⟨_, rfl, List.length_map _ _, ?_, ?_, ?_, ?_⟩
  · have hrow : field_display_row f = (if sb then
        RowCall.add_key_label_format_searchable f.name f.name (format_string fmt)
      else RowCall.add_key_label_format f.name f.name (format_string fmt)) := by
      simp [field_display_row, hscan]
    simp [List.getElem?_map, hf, hrow]
  · have := scan_field_attrs_ok_searchable f.attrs none false fmt sb hscan
    simpa using this
  · intro hno
    have h2 := scan_field_attrs_no_fmt f.attrs none false hno
    rw [hscan] at h2
    simp only [Except.ok.injEq, Prod.mk.injEq] at h2
    exact h2.1
  · intro h
    subst h
    rfl

/-- C1 witness: a one-field struct whose field carries only `searchable`
yields the searchable row with `Format::String`, by
`typeDisplay_row_per_field_spec`. -/
theorem typeDisplay_row_per_field_spec_witness :
    ∃ d, marker_type_display_impl "M" []
        (Data.Struct (Fields.Named [⟨"a", [⟨AttrStyle.Outer, "searchable", 3, []⟩]⟩])) =
          some d ∧
      d.rows.length = 1 ∧
      d.rows[0]? = some (if true then
          RowCall.add_key_label_format_searchable "a" "a" (format_string none)
        else RowCall.add_key_label_format "a" "a" (format_string none)) ∧
      true = [(⟨AttrStyle.Outer, "searchable", 3, []⟩ : Attr)].any is_srch_attr ∧
      ((∀ a ∈ [(⟨AttrStyle.Outer, "searchable", 3, []⟩ : Attr)], is_fmt_attr a = false) →
        (none : Option String) = none) ∧
      ((none : Option String) = none → format_string none = "Format::String") :=
  typeDisplay_row_per_field_spec "M" [] [⟨"a", [⟨AttrStyle.Outer, "searchable", 3, []⟩]⟩]
    0 ⟨"a", [⟨AttrStyle.Outer, "searchable", 3, []⟩]⟩ none true rfl rfl

/-- C4: a second `format` annotation on the same field turns the field's
generated row into an embedded "Too many format arguments" compile error
pinned to the second occurrence's span (`attr.span()`), failing the build;
the diagnostic sits at that field's position in the generated display
body. -/
theorem duplicate_format_error (f : Field) (l₁ l₂ l₃ : List Attr)
    (sp₁ spn sp₂ : Nat) (id₁ : String) (args₂ : List NestedMeta)
    (hattrs : f.attrs = l₁ ++ ⟨AttrStyle.Outer, "format", sp₁, [⟨spn, some id₁⟩]⟩ ::
        (l₂ ++ ⟨AttrStyle.Outer, "format", sp₂, args₂⟩ :: l₃))
    (h₁ : ∀ a ∈ l₁, is_fmt_attr a = false)
    (h₂ : ∀ a ∈ l₂, is_fmt_attr a = false)
    (hid : is_valid_format_string id₁ = true) :
    field_display_row f = RowCall.compile_error ⟨sp₂, "Too many format arguments"⟩ ∧
    ∀ (name : String) (locs : List String) (fields : List Field) (i : Nat)
      (d : TypeDisplayBody),
      fields[i]? = some f →
      marker_type_display_impl name locs (Data.Struct (Fields.Named fields)) = some d →
      d.rows[i]? = some (RowCall.compile_error ⟨sp₂, "Too many format arguments"⟩) := by
  have hscan : scan_field_attrs f.attrs none false =
      Except.error ⟨sp₂, "Too many format arguments"⟩ := by
    rw [hattrs, scan_field_attrs_skip _ _ _ _ h₁]
    have e₂ : scan_field_attrs (⟨AttrStyle.Outer, "format", sp₁, [⟨spn, some id₁⟩]⟩ ::
        (l₂ ++ ⟨AttrStyle.Outer, "format", sp₂, args₂⟩ :: l₃)) none
          (false || l₁.any is_srch_attr) =
        scan_field_attrs (l₂ ++ ⟨AttrStyle.Outer, "format", sp₂, args₂⟩ :: l₃) (some id₁)
          (false || l₁.any is_srch_attr) := by
      rw [scan_field_attrs_cons_outer,
        if_neg (by decide : ¬ ("format" = "searchable")), if_pos rfl,
        if_neg (by simp : ¬ ((none : Option String).isSome = true))]
      rw [show parse_format_args [⟨spn, some id₁⟩] none = Except.ok (some id₁) by
        simp [parse_format_args, hid]]
    rw [e₂, scan_field_attrs_skip _ _ _ _ h₂]
    rw [scan_field_attrs_cons_outer,
      if_neg (by decide : ¬ ("format" = "searchable")), if_pos rfl,
      if_pos (Option.isSome_some : (some id₁).isSome = true)]
  have hrow : field_display_row f =
      RowCall.compile_error ⟨sp₂, "Too many format arguments"⟩ := by
    simp [field_display_row, hscan]
  refine ⟨hrow, ?_⟩
  intro name locs fields i d hf hd
  simp only [marker_type_display_impl, Option.some.injEq] at hd
  rw [← hd]
  simp [List.getElem?_map, hf, hrow]

/-- C4 witness: a field with `#[format(Integer)]` followed by
`#[format(Seconds)]` produces the duplicate-format diagnostic pinned to the
second attribute's span, by `duplicate_format_error`. -/
theorem duplicate_format_error_witness :
    field_display_row ⟨"x",
        [⟨AttrStyle.Outer, "format", 1, [⟨2, some "Integer"⟩]⟩,
         ⟨AttrStyle.Outer, "format", 3, [⟨4, some "Seconds"⟩]⟩]⟩ =
      RowCall.compile_error ⟨3, "Too many format arguments"⟩ :=
  (duplicate_format_error
    ⟨"x", [⟨AttrStyle.Outer, "format", 1, [⟨2, some "Integer"⟩]⟩,
           ⟨AttrStyle.Outer, "format", 3, [⟨4, some "Seconds"⟩]⟩]⟩
    [] [] [] 1 2 3 "Integer" [⟨4, some "Seconds"⟩] rfl
    (by simp) (by simp) (by decide)).1

/-- The test crate's `ExampleMarker` from `src/lib.rs`: three named fields —
`field1` with `searchable` and `format(Integer)`, `field2` with
`format(String)`, `field3` with `format(Integer)` — under
`#[marker_display(MarkerChart, MarkerTable, TimelineIPC)]`. -/
def example_marker_input : DeriveInput :=
  { ident := "ExampleMarker"
    attrs := [⟨AttrStyle.Outer, "marker_display", 1,
               [⟨2, some "MarkerChart"⟩, ⟨3, some "MarkerTable"⟩,
                ⟨4, some "TimelineIPC"⟩]⟩]
    data := Data.Struct (Fields.Named
      [⟨"field1", [⟨AttrStyle.Outer, "searchable", 5, []⟩,
                   ⟨AttrStyle.Outer, "format", 6, [⟨7, some "Integer"⟩]⟩]⟩,
       ⟨"field2", [⟨AttrStyle.Outer, "format", 8, [⟨9, some "String"⟩]⟩]⟩,
       ⟨"field3", [⟨AttrStyle.Outer, "format", 10, [⟨11, some "Integer"⟩]⟩]⟩]) }

/-- The artifacts the derive emits for `example_marker_input`. -/
def example_marker_artifacts : Artifacts :=
  { type_name := "ExampleMarker"
    display := { new_locations := ["Location::MarkerChart"]
                 chart_label := "Name: \x7bmarker.name\x7d"
                 rows := [RowCall.add_key_label_format_searchable
                            "field1" "field1" "Format::Integer",
                          RowCall.add_key_label_format "field2" "field2" "Format::String",
                          RowCall.add_key_label_format "field3" "field3" "Format::Integer"] }
    writes := [] }

/-- C2 counterexample: for the test crate's `ExampleMarker` the schema
declares the ordered keys ["field1", "field2", "field3"], but the generated
`stream_json_marker_data` body performs no property writes at all, so the
emitted JSON property sequence does not match the schema row sequence. -/
theorem writeData_schema_mismatch_counterexample :
    derive_profiler_marker example_marker_input = DeriveResult.ok example_marker_artifacts ∧
    row_keys example_marker_artifacts.display.rows = ["field1", "field2", "field3"] ∧
    example_marker_artifacts.writes.map Prod.fst ≠
      row_keys example_marker_artifacts.display.rows := by
  refine ⟨rfl, rfl, by decide⟩

/-- C2 amended: the generated `stream_json_marker_data` body is empty — every
successful derive emits an artifact performing no property writes — so the
schema/payload consistency contract holds exactly when the schema declares no
row keys. -/
theorem writeData_empty_body (input : DeriveInput) (a : Artifacts)
    (h : derive_profiler_marker input = DeriveResult.ok a) :
    a.writes = [] ∧
    (a.writes.map Prod.fst = row_keys a.display.rows ↔
      row_keys a.display.rows = []) := by
  obtain ⟨locs, fields, _, _, ha⟩ := derive_ok_inversion input a h
  subst ha
  exact ⟨rfl, eq_comm⟩

/-- C2 amended witness: the `ExampleMarker` derive yields an empty write
list, by `writeData_empty_body`. -/
theorem writeData_empty_body_witness :
    example_marker_artifacts.writes = [] ∧
    (example_marker_artifacts.writes.map Prod.fst =
        row_keys example_marker_artifacts.display.rows ↔
      row_keys example_marker_artifacts.display.rows = []) :=
  writeData_empty_body example_marker_input example_marker_artifacts rfl

/-- A record definition with two fields each carrying an invalid `format`
annotation. -/
def two_bad_fields_input : DeriveInput :=
  { ident := "T"
    attrs := []
    data := Data.Struct (Fields.Named
      [⟨"a", [⟨AttrStyle.Outer, "format", 10, [⟨11, some "Bogus"⟩]⟩]⟩,
       ⟨"b", [⟨AttrStyle.Outer, "format", 20, [⟨21, some "AlsoBogus"⟩]⟩]⟩]) }

/-- The artifacts emitted for `two_bad_fields_input`: all three items are
still produced, with both fields' rows replaced by embedded compile
errors. -/
def two_bad_fields_artifacts : Artifacts :=
  { type_name := "T"
    display := { new_locations := ["Location::MarkerChart"]
                 chart_label := "Name: \x7bmarker.name\x7d"
                 rows := [RowCall.compile_error ⟨11, "Unsupported format specifier"⟩,
                          RowCall.compile_error ⟨21, "Unsupported format specifier"⟩] }
    writes := [] }

/-- C3 counterexample: with two invalid field-level `format` annotations the
derive still emits all three artifacts — it does not stop at the first field
error and does not withhold the artifacts — and it embeds two diagnostics,
not a single one. -/
theorem derive_not_atomic_counterexample :
    derive_profiler_marker two_bad_fields_input = DeriveResult.ok two_bad_fields_artifacts ∧
    error_row_count two_bad_fields_artifacts.display.rows = 2 :=
  ⟨rfl, rfl⟩

/-- C3 amended: a `marker_display` validation failure aborts the derive with
that single diagnostic and no artifacts; field-level failures do not stop the
derive — for a named-field struct passing type-level validation, all three
artifacts are always emitted, each failing field contributing its own
embedded compile-error row in place of its schema row. -/
theorem derive_error_handling_amended (input : DeriveInput) :
    (∀ e, collect_marker_locations input.attrs [] = Except.error e →
       derive_profiler_marker input = DeriveResult.compile_error e) ∧
    (∀ locs fields, collect_marker_locations input.attrs [] = Except.ok locs →
       input.data = Data.Struct (Fields.Named fields) →
       derive_profiler_marker input = DeriveResult.ok
         ⟨input.ident,
          ⟨["Location::MarkerChart"], "Name: \x7bmarker.name\x7d",
           fields.map field_display_row⟩,
          []⟩) := by
  constructor
  · intro e he
    unfold derive_profiler_marker
    rw [he]
  · intro locs fields hc hd
    unfold derive_profiler_marker
    rw [hc, hd]
    exact rfl

/-- C3 amended witness: a bad `marker_display` aborts with the lone pinned
diagnostic, while the two-bad-fields input still yields all three artifacts,
by `derive_error_handling_amended`. -/
theorem derive_error_handling_amended_witness :
    derive_profiler_marker
        ⟨"U", [⟨AttrStyle.Outer, "marker_display", 30, [⟨31, some "Bogus"⟩]⟩],
         Data.Struct (Fields.Named [])⟩ =
      DeriveResult.compile_error ⟨31, "Unsupported marker display location"⟩ ∧
    derive_profiler_marker two_bad_fields_input = DeriveResult.ok
      ⟨"T", ⟨["Location::MarkerChart"], "Name: \x7bmarker.name\x7d",
        [(⟨"a", [⟨AttrStyle.Outer, "format", 10, [⟨11, some "Bogus"⟩]⟩]⟩ : Field),
         ⟨"b", [⟨AttrStyle.Outer, "format", 20, [⟨21, some "AlsoBogus"⟩]⟩]⟩].map
          field_display_row⟩, []⟩ :=
  ⟨(derive_error_handling_amended
      ⟨"U", [⟨AttrStyle.Outer, "marker_display", 30, [⟨31, some "Bogus"⟩]⟩],
       Data.Struct (Fields.Named [])⟩).1 _ rfl,
   (derive_error_handling_amended two_bad_fields_input).2 [] _ rfl rfl⟩

/-- A tuple struct whose `marker_display` names an unknown location. -/
def tuple_bad_location_input : DeriveInput :=
  { ident := "V"
    attrs := [⟨AttrStyle.Outer, "marker_display", 40, [⟨41, some "NotALocation"⟩]⟩]
    data := Data.Struct Fields.Unnamed }

/-- C10 counterexample: applying the derive to a tuple struct whose
`marker_display` names an unknown location yields a pinned diagnostic, not a
panic — "applying the derive to a tuple struct ... panics instead of
producing ... a pinned diagnostic" does not hold unconditionally. -/
theorem shape_panic_counterexample :
    derive_profiler_marker tuple_bad_location_input =
      DeriveResult.compile_error ⟨41, "Unsupported marker display location"⟩ ∧
    derive_profiler_marker tuple_bad_location_input ≠ DeriveResult.panicked :=
  ⟨rfl, by decide⟩

/-- C10 amended: provided the type-level `marker_display` validation
succeeds, the derive panics (`todo!` / `unimplemented!`) exactly on the
non-named-field shapes — tuple structs, unit structs, enums and unions panic
producing neither artifacts nor a diagnostic, while a struct with named
fields never reaches the panic branches. -/
theorem shape_panic_amended (input : DeriveInput) (locs : List String)
    (hc : collect_marker_locations input.attrs [] = Except.ok locs) :
    ((∀ fields, input.data ≠ Data.Struct (Fields.Named fields)) →
       derive_profiler_marker input = DeriveResult.panicked) ∧
    (∀ fields, input.data = Data.Struct (Fields.Named fields) →
       derive_profiler_marker input ≠ DeriveResult.panicked) := by
  constructor
  · intro h
    unfold derive_profiler_marker
    rw [hc]
    cases hdata : input.data with
    | Struct fs =>
      cases fs with
      | Named fields => exact absurd hdata (h fields)
      | Unnamed => rfl
      | Unit => rfl
    | Enum => rfl
    | Union => rfl
  · intro fields hd
    unfold derive_profiler_marker
    rw [hc, hd]
    exact fun hcontra => DeriveResult.noConfusion hcontra

/-- C10 amended witness: deriving on an enum panics, by
`shape_panic_amended`. -/
theorem shape_panic_amended_witness :
    derive_profiler_marker ⟨"W", [], Data.Enum⟩ = DeriveResult.panicked :=
  (shape_panic_amended ⟨"W", [], Data.Enum⟩ [] rfl).1
    (fun _ h => Data.noConfusion h)

end Profiler
